import Mathlib

/-!
Verification of the votebox client (`src/client/vote.py`), a Raspberry-Pi
voting-station controller: five buttons, five PWM-driven LEDs, an HTTP vote
dispatcher with token authentication, and a connection-health probe.

The Python source is shallowly embedded: module-level constants become Lean
`def`s, the per-frame LED servicing loop body becomes a pure function from
the frame's inputs (health flag, press timestamps, current time, sweep
value) to the duty-cycle writes and updated timestamps, and the networked
functions (`send_vote`, `test_connection`, `get_auth_token`) become pure
functions parameterised by the outcome of the external HTTP call / random
source, returning the new health state, emitted log lines, and errors via
`Except` when the Python code would raise.
-/

namespace VoteBox

/-! ## Module constants (vote.py lines 16-26) -/

/-- `bouncetime = 400` ms, switch debounce time. -/
def bouncetime : Nat := 400

/-- `max_bright = 50` %, maximum duty rate percent. -/
def max_bright : Nat := 50

/-- `min_bright = 5` %, minimum duty rate percent. -/
def min_bright : Nat := 5

/-- `flash_time = 3000` ms, LED flashing time. -/
def flash_time : Nat := 3000

/-- `flash_each = 250` ms, LED flash length (individual). -/
def flash_each : Nat := 250

/-- `SERVICE_URL` constant. -/
def SERVICE_URL : String := "https://openlab.ncl.ac.uk/votebox/"

/-! ## The LED animator (`service_leds`, vote.py lines 145-168)

`service_leds` iterates `i` over
`chain(range(min_bright, max_bright), range(max_bright, min_bright, -1))`,
and for each `i` (one animation frame) reads `now = millis()`, computes
`led_on = (now // flash_each) % 2`, and services each PWM channel `j`.

Timestamps are modelled as `Nat` (Python's `millis()` returns a nonnegative
int).  The only subtraction, `now - flash_time` in the expiry test
`pressed[j] < now - flash_time`, is Python integer subtraction; `Nat`
truncation is faithful there because the test is only evaluated when
`pressed[j] >= 1`, and `pressed[j] < now - 3000` has the same truth value
over `Int` and truncated `Nat` for any `pressed[j] >= 1`. -/

/-- Python `range(a, b)` for a nonnegative step-1 range. -/
def pyRangeUp (a b : Nat) : List Nat := List.range' a (b - a)

/-- Python `range(a, b, -1)`: the list `a, a-1, ..., b+1`. -/
def pyRangeDown (a b : Nat) : List Nat := (List.range' (b + 1) (a - b)).reverse

/-- The brightness sweep sequence of one `service_leds` call:
`chain(range(min_bright, max_bright), range(max_bright, min_bright, -1))`
(vote.py line 147). -/
def sweepList : List Nat :=
  pyRangeUp min_bright max_bright ++ pyRangeDown max_bright min_bright

/-- Number of frames in one full sweep (length of `sweepList`). -/
def sweepPeriod : Nat := sweepList.length

/-- The sweep value `i` at global frame index `n`: `main` calls
`service_leds` in an unconditional loop, so the sweep sequence repeats
cyclically. -/
def sweep (n : Nat) : Nat := sweepList.getD (n % sweepPeriod) 0

/-- The global blink clock `led_on = (now // flash_each) % 2`
(vote.py line 150). -/
def ledOnClock (now : Nat) : Nat := now / flash_each % 2

/-- One PWM channel `j` serviced for one frame (body of the inner `for`
loop, vote.py lines 152-166).  Inputs: the health flag `state_ok`, the
blink clock `led_on`, the sweep value `i`, the frame time `now`, the
channel index `j` and the press timestamp `pj = pressed[j]`.  Returns
`(duty, pj_new)` where `duty` is `some d` when the frame calls
`p.ChangeDutyCycle(d)` and `none` when it does not, and `pj_new` is the
value of `pressed[j]` after the frame. -/
def ledFrame (state_ok : Bool) (led_on i now j pj : Nat) : Option Nat × Nat :=
  if state_ok = false then
    (some (if j = 0 then led_on * max_bright else 0), pj)
  else if pj ≠ 0 then
    if pj < now - flash_time then
      (none, 0)
    else
      (some (led_on * 100), pj)
  else
    (some i, pj)

/-- The inner `for j,p in enumerate(pwm)` loop: services the channels of
`pressed` in order starting at index `j0`, returning the list of duty-cycle
writes (one `Option Nat` per channel) and the updated press timestamps. -/
def serviceChannels (state_ok : Bool) (led_on i now : Nat) :
    Nat → List Nat → List (Option Nat) × List Nat
  | _, [] => ([], [])
  | j, pj :: rest =>
    let r := ledFrame state_ok led_on i now j pj
    let rs := serviceChannels state_ok led_on i now (j + 1) rest
    (r.1 :: rs.1, r.2 :: rs.2)

/-- One full animation frame over all channels, at global frame index `n`
and time `now`: returns the duty-cycle writes and the updated `pressed`
array. -/
def serviceFrame (state_ok : Bool) (now n : Nat) (pressed : List Nat) :
    List (Option Nat) × List Nat :=
  serviceChannels state_ok (ledOnClock now) (sweep n) now 0 pressed

/-- A run of consecutive animation frames all taken while `state_ok` is
false: `frames` lists each frame's `(now, n)`; the result is the `pressed`
array after the run. -/
def errorFrames (frames : List (Nat × Nat)) (pressed : List Nat) : List Nat :=
  frames.foldl (fun ps f => (serviceFrame false f.1 f.2 ps).2) pressed

/-! ## Configuration and HTTP model

The JSON config dict may or may not contain the keys `uuid` and `key`;
Python's `config['key']` raises `KeyError` when absent (the spec's
`CredentialMissing`).  The `requests` library is external: an HTTP call is
modelled by its outcome, either a raised transport exception or a
`Response` with a status code and body text. -/

instance exceptDecEq {ε α : Type} [DecidableEq ε] [DecidableEq α] :
    DecidableEq (Except ε α) := fun a b =>
  match a, b with
  | .error e1, .error e2 =>
    decidable_of_iff (e1 = e2) ⟨fun h => by rw [h], fun h => by injection h⟩
  | .error _, .ok _ => .isFalse (fun h => Except.noConfusion h)
  | .ok _, .error _ => .isFalse (fun h => Except.noConfusion h)
  | .ok a1, .ok a2 =>
    decidable_of_iff (a1 = a2) ⟨fun h => by rw [h], fun h => by injection h⟩

structure Config where
  uuid : Option String
  key : Option String

/-- An HTTP response; the body `text` is a Python `str`, a sequence of
characters. -/
structure Response where
  status_code : Nat
  text : List Char

/-- A transport-level exception raised by `requests.post` / `requests.get`. -/
inductive TransportError
  | timeout
  | connectionError
deriving DecidableEq

/-- Printable text of a transport exception (stands in for Python's
`str(e)`; the exact text is owned by the external `requests` library). -/
def transportText : TransportError → List Char
  | .timeout => "timeout".toList
  | .connectionError => "connection error".toList

/-- Python `s.replace(a, b)` for single characters. -/
def pyReplace (s : List Char) (a b : Char) : List Char :=
  s.map (fun c => if c = a then b else c)

/-- `error_state(msg=None, clear=False)` (vote.py lines 118-123): sets the
global `state_ok` to `False or clear` and, when the resulting state is not
ok, emits one error log line (`msg`, or the default message).  Returns the
new `state_ok` and the list of error log lines emitted. -/
def error_state (msg : Option (List Char)) (clear : Bool) :
    Bool × List (List Char) :=
  let state_ok := false || clear
  (state_ok,
   if state_ok = false then [msg.getD "Entered error state".toList] else [])

/-- The error log line of `send_vote` (vote.py line 90):
`"(Status: {0}) {1}".format(response.status_code, response.text[:100].replace('\n',' '))`. -/
def voteFailLine (r : Response) : List Char :=
  "(Status: ".toList ++ (toString r.status_code).toList ++ ") ".toList ++
    pyReplace (r.text.take 100) '\n' ' '

/-- Failure modes of `send_vote`: Python `KeyError` on a missing config
entry (`config['uuid']`, `config['key']`), or the uncaught transport
exception of `requests.post`. -/
inductive DispatchError
  | uuidMissing
  | keyMissing
  | transport (e : TransportError)
deriving DecidableEq

/-- `send_vote(index)` (vote.py lines 83-92), parameterised by the outcome
of the `requests.post` call.  The payload is built from `config['uuid']`
and the auth token from `config['key']` (inside `get_auth_token`) before
the POST executes, so a missing entry raises first; there is no
`try/except` in `send_vote`, so a transport exception propagates out
(`Except.error`).  On a response, `error_state` is called: non-200 sets
`state_ok` false with one error line, 200 clears it with no error line.
Returns the new `state_ok` and the emitted error log lines. -/
def send_vote (cfg : Config) (outcome : Except TransportError Response) :
    Except DispatchError (Bool × List (List Char)) :=
  match cfg.uuid with
  | none => .error .uuidMissing
  | some _ =>
    match cfg.key with
    | none => .error .keyMissing
    | some _ =>
      match outcome with
      | .error e => .error (.transport e)
      | .ok r =>
        if r.status_code ≠ 200 then
          .ok (error_state (some (voteFailLine r)) false)
        else
          .ok (error_state none true)

/-! ## The connection-health probe (`test_connection`, vote.py lines 96-115) -/

/-- The mutable state read and written by `test_connection`: the global
`state_ok` flag and the function-static duplicate-log-suppression flag
`test_connection.error` (initialised `False` at line 115). -/
structure ProbeState where
  state_ok : Bool
  error : Bool
deriving DecidableEq

/-- Outcome of the `requests.get(SERVICE_URL + 'ping', ...)` call. -/
inductive ProbeOutcome
  | exn (e : TransportError)
  | resp (r : Response)

/-- The error log line for a ping transport exception (vote.py line 104). -/
def pingFailLine (e : TransportError) : List Char :=
  "Could not ping SERVICE_URL ".toList ++ SERVICE_URL.toList ++
    ". Exception: ".toList ++ transportText e

/-- The error log line for a non-200 ping response (vote.py line 112). -/
def badResponseLine (status : Nat) : List Char :=
  "Connection opened but bad response (".toList ++ (toString status).toList ++
    ") from server!".toList

/-- `test_connection()` (vote.py lines 96-115) as a state transition.
Returns the new `ProbeState`, the error log lines emitted (the
`log.info("Connection tested and working")` on success is an info line,
not an error line, and is not counted), and whether the HTTP request was
issued at all.  A missing `config['key']` returns early, touching only
`test_connection.error`. -/
def test_connection (cfg : Config) (o : ProbeOutcome) (s : ProbeState) :
    ProbeState × List (List Char) × Bool :=
  match cfg.key with
  | none => ({ s with error := true }, [], false)
  | some _ =>
    match o with
    | .exn e =>
      if s.error = false then
        (⟨false, true⟩, [pingFailLine e], true)
      else
        ({ s with error := true }, [], true)
    | .resp r =>
      if r.status_code = 200 then
        (⟨true, false⟩, [], true)
      else if s.error = false then
        (⟨false, true⟩, [badResponseLine r.status_code], true)
      else
        (s, [], true)

/-- A sequence of `test_connection` calls (one per unhealthy animation
cycle of `main`): returns the final state and the total number of error
log lines emitted. -/
def runProbe (cfg : Config) : ProbeState → List ProbeOutcome → ProbeState × Nat
  | s, [] => (s, 0)
  | s, o :: rest =>
    let r := test_connection cfg o s
    let rr := runProbe cfg r.1 rest
    (rr.1, r.2.1.length + rr.2)

/-- A probe outcome that is a failure: a transport exception or a non-200
response. -/
def failing : ProbeOutcome → Bool
  | .exn _ => true
  | .resp r => r.status_code != 200

/-! ## The auth-token issuer (`get_auth_token`, vote.py lines 74-79)

`os.urandom(32)` is modelled by reading 32 bytes from a byte stream
`f : Nat → Nat` (each masked to a byte); `base64.b64encode` is implemented
concretely below; `itsdangerous.TimestampSigner(key).sign(tok)` is an
external library call modelled as a record of what the signed blob
carries: the signed value, the embedded timestamp, and the signing key. -/

/-- `os.urandom(n)` reading from byte stream `f`. -/
def urandom (f : Nat → Nat) (n : Nat) : List Nat :=
  (List.range n).map (fun k => f k % 256)

/-- The standard base64 alphabet. -/
def b64chars : List Char :=
  "ABCDEFGHIJKLMNOPQRSTUVWXYZabcdefghijklmnopqrstuvwxyz0123456789+/".toList

/-- The base64 digit for a 6-bit value. -/
def b64char (n : Nat) : Char := b64chars.getD n 'A'

/-- `base64.b64encode` on a byte list (standard alphabet, `=` padding). -/
def b64encode : List Nat → List Char
  | [] => []
  | [b1] => [b64char (b1 / 4), b64char (b1 % 4 * 16), '=', '=']
  | [b1, b2] =>
      [b64char (b1 / 4), b64char (b1 % 4 * 16 + b2 / 16), b64char (b2 % 16 * 4), '=']
  | b1 :: b2 :: b3 :: rest =>
      b64char (b1 / 4) :: b64char (b1 % 4 * 16 + b2 / 16) ::
      b64char (b2 % 16 * 4 + b3 / 64) :: b64char (b3 % 64) :: b64encode rest

/-- The 6-bit value of a base64 digit. -/
def b64val (c : Char) : Nat := b64chars.indexOf c

/-- Base64 decoding, the left inverse of `b64encode` used to show a token
embeds exactly the random bytes drawn for it. -/
def b64decode : List Char → List Nat
  | c1 :: c2 :: c3 :: c4 :: rest =>
      if c3 = '=' then
        [b64val c1 * 4 + b64val c2 / 16]
      else if c4 = '=' then
        [b64val c1 * 4 + b64val c2 / 16, b64val c2 % 16 * 16 + b64val c3 / 4]
      else
        (b64val c1 * 4 + b64val c2 / 16) ::
        (b64val c2 % 16 * 16 + b64val c3 / 4) ::
        (b64val c3 % 4 * 64 + b64val c4) :: b64decode rest
  | _ => []

/-- The signed blob produced by `itsdangerous.TimestampSigner(key).sign(v)`:
carries the signed value `v`, the embedded signing timestamp, and is bound
to the signing key.  The HMAC itself lives in the external library; the
record keeps exactly the data the signature commits to. -/
structure SignedToken where
  value : List Char
  timestamp : Nat
  signedWith : String
deriving DecidableEq

/-- The spec's `CredentialMissing`: in the code, `config['key']` raising
`KeyError` inside `get_auth_token`. -/
inductive AuthError
  | credentialMissing
deriving DecidableEq

/-- `get_auth_token()` (vote.py lines 74-79): base64-encode 32 fresh bytes
from the random source `f`, then sign them with the configured key at
timestamp `ts`.  Fails when the key is absent from the config. -/
def get_auth_token (cfg : Config) (f : Nat → Nat) (ts : Nat) :
    Except AuthError SignedToken :=
  match cfg.key with
  | none => .error .credentialMissing
  | some k => .ok ⟨b64encode (urandom f 32), ts, k⟩

/-- `buttonPress(channel)` (vote.py lines 130-138), restricted to its
effect on the `pressed` array: records `millis()` at the pressed index. -/
def buttonPress (pressed : List Nat) (ix now : Nat) : List Nat :=
  pressed.set ix now

/-! ## Helper lemmas about the animator -/

lemma sweepPeriod_eq : sweepPeriod = 90 := by decide

lemma sweepList_bounds :
    ∀ k, k < 90 → min_bright ≤ sweepList.getD k 0 ∧ sweepList.getD k 0 ≤ max_bright := by
  decide

lemma sweepList_step :
    ∀ k, k < 90 →
      (k < 45 → sweepList.getD ((k + 1) % 90) 0 = sweepList.getD k 0 + 1) ∧
      (45 ≤ k → sweepList.getD k 0 = sweepList.getD ((k + 1) % 90) 0 + 1) := by
  decide

lemma sweep_eq (n : Nat) : sweep n = sweepList.getD (n % 90) 0 := by
  unfold sweep
  rw [sweepPeriod_eq]

lemma sweep_succ (n : Nat) : sweep (n + 1) = sweepList.getD ((n % 90 + 1) % 90) 0 := by
  rw [sweep_eq]
  congr 1
  omega

lemma sweep_bounds (n : Nat) : min_bright ≤ sweep n ∧ sweep n ≤ max_bright := by
  rw [sweep_eq]
  exact sweepList_bounds (n % 90) (Nat.mod_lt _ (by omega))

lemma ledOnClock_le_one (now : Nat) : ledOnClock now ≤ 1 := by
  have h := Nat.mod_lt (now / flash_each) (show 0 < 2 by omega)
  unfold ledOnClock
  omega

lemma serviceChannels_duty_getD (so : Bool) (lo i now : Nat) :
    ∀ (ps : List Nat) (j0 j : Nat), j < ps.length →
      (serviceChannels so lo i now j0 ps).1.getD j none =
        (ledFrame so lo i now (j0 + j) (ps.getD j 0)).1 := by
  intro ps
  induction ps with
  | nil => intro j0 j hj; simp at hj
  | cons p rest ih =>
    intro j0 j hj
    cases j with
    | zero => simp [serviceChannels]
    | succ k =>
      have hk : k < rest.length := by simpa using hj
      have h1 : j0 + 1 + k = j0 + (k + 1) := by omega
      simp only [serviceChannels, List.getD_cons_succ]
      rw [ih (j0 + 1) k hk, h1]

lemma serviceChannels_pressed_getD (so : Bool) (lo i now : Nat) :
    ∀ (ps : List Nat) (j0 j : Nat), j < ps.length →
      (serviceChannels so lo i now j0 ps).2.getD j 0 =
        (ledFrame so lo i now (j0 + j) (ps.getD j 0)).2 := by
  intro ps
  induction ps with
  | nil => intro j0 j hj; simp at hj
  | cons p rest ih =>
    intro j0 j hj
    cases j with
    | zero => simp [serviceChannels]
    | succ k =>
      have hk : k < rest.length := by simpa using hj
      have h1 : j0 + 1 + k = j0 + (k + 1) := by omega
      simp only [serviceChannels, List.getD_cons_succ]
      rw [ih (j0 + 1) k hk, h1]

lemma ledFrame_error_pressed (lo i now j pj : Nat) :
    (ledFrame false lo i now j pj).2 = pj := by
  simp [ledFrame]

lemma serviceChannels_error_pressed (lo i now : Nat) :
    ∀ (ps : List Nat) (j0 : Nat), (serviceChannels false lo i now j0 ps).2 = ps := by
  intro ps
  induction ps with
  | nil => intro j0; rfl
  | cons p rest ih =>
    intro j0
    simp [serviceChannels, ledFrame_error_pressed, ih]

lemma serviceFrame_error_pressed (now n : Nat) (ps : List Nat) :
    (serviceFrame false now n ps).2 = ps :=
  serviceChannels_error_pressed _ _ _ ps 0

lemma errorFrames_eq (frames : List (Nat × Nat)) :
    ∀ ps : List Nat, errorFrames frames ps = ps := by
  induction frames with
  | nil => intro ps; rfl
  | cons f rest ih =>
    intro ps
    unfold errorFrames at ih ⊢
    rw [List.foldl_cons, serviceFrame_error_pressed, ih]

lemma ledFrame_duty_le (so : Bool) (lo i now j pj : Nat)
    (hlo : lo ≤ 1) (hi : i ≤ max_bright) :
    ∀ d, (ledFrame so lo i now j pj).1 = some d → d ≤ 100 := by
  intro d hd
  have hmb : max_bright = 50 := rfl
  by_cases hso : so = false
  · by_cases hj0 : j = 0 <;> simp [ledFrame, hso, hj0, hmb] at hd <;> omega
  · by_cases hpj : pj ≠ 0
    · by_cases hexp : pj < now - flash_time
      · simp [ledFrame, hso, hpj, hexp] at hd
      · simp [ledFrame, hso, hpj, hexp] at hd
        omega
    · simp [ledFrame, hso, hpj] at hd
      omega

lemma serviceChannels_duty_mem (so : Bool) (lo i now : Nat) :
    ∀ (ps : List Nat) (j0 : Nat) (od : Option Nat),
      od ∈ (serviceChannels so lo i now j0 ps).1 →
      ∃ j pj, od = (ledFrame so lo i now j pj).1 := by
  intro ps
  induction ps with
  | nil => intro j0 od h; simp [serviceChannels] at h
  | cons p rest ih =>
    intro j0 od h
    simp only [serviceChannels, List.mem_cons] at h
    rcases h with h | h
    · exact ⟨j0, p, h⟩
    · exact ih (j0 + 1) od h

/-! ## Helper lemmas about base64 -/

lemma urandom_lt (f : Nat → Nat) (n : Nat) : ∀ b ∈ urandom f n, b < 256 := by
  intro b hb
  simp only [urandom, List.mem_map, List.mem_range] at hb
  obtain ⟨k, _, hk⟩ := hb
  omega

lemma urandom_length (f : Nat → Nat) (n : Nat) : (urandom f n).length = n := by
  simp [urandom]

lemma b64val_b64char : ∀ m, m < 64 → b64val (b64char m) = m := by decide

lemma b64char_ne_pad : ∀ m, m < 64 → b64char m ≠ '=' := by decide

lemma b64_roundtrip : ∀ bs : List Nat, (∀ b ∈ bs, b < 256) →
    b64decode (b64encode bs) = bs
  | [] => fun _ => rfl
  | [b1] => fun h => by
    have hb1 : b1 < 256 := h b1 (by simp)
    have h1 := b64val_b64char (b1 / 4) (by omega)
    have h2 := b64val_b64char (b1 % 4 * 16) (by omega)
    simp [b64encode, b64decode, h1, h2]
    omega
  | [b1, b2] => fun h => by
    have hb1 : b1 < 256 := h b1 (by simp)
    have hb2 : b2 < 256 := h b2 (by simp)
    have h1 := b64val_b64char (b1 / 4) (by omega)
    have h2 := b64val_b64char (b1 % 4 * 16 + b2 / 16) (by omega)
    have h3 := b64val_b64char (b2 % 16 * 4) (by omega)
    have hc3 := b64char_ne_pad (b2 % 16 * 4) (by omega)
    simp [b64encode, b64decode, hc3, h1, h2, h3]
    omega
  | b1 :: b2 :: b3 :: rest => fun h => by
    have hb1 : b1 < 256 := h b1 (by simp)
    have hb2 : b2 < 256 := h b2 (by simp)
    have hb3 : b3 < 256 := h b3 (by simp)
    have ih := b64_roundtrip rest (fun b hb => h b (by simp [hb]))
    have h1 := b64val_b64char (b1 / 4) (by omega)
    have h2 := b64val_b64char (b1 % 4 * 16 + b2 / 16) (by omega)
    have h3 := b64val_b64char (b2 % 16 * 4 + b3 / 64) (by omega)
    have h4 := b64val_b64char (b3 % 64) (by omega)
    have hc3 := b64char_ne_pad (b2 % 16 * 4 + b3 / 64) (by omega)
    have hc4 := b64char_ne_pad (b3 % 64) (by omega)
    simp [b64encode, b64decode, hc3, hc4, h1, h2, h3, h4, ih]
    omega

/-! ## Helper lemmas about the probe -/

lemma test_connection_fail_first (cfg : Config) (k : String) (o : ProbeOutcome)
    (s : ProbeState) (hk : cfg.key = some k) (hfo : failing o = true)
    (hs : s.error = false) :
    (test_connection cfg o s).1 = ⟨false, true⟩ ∧
      (test_connection cfg o s).2.1.length = 1 := by
  cases o with
  | exn e => simp [test_connection, hk, hs]
  | resp r =>
    have hr : ¬ r.status_code = 200 := by simpa [failing] using hfo
    simp [test_connection, hk, hs, hr]

lemma test_connection_fail_errored (cfg : Config) (k : String) (o : ProbeOutcome)
    (hk : cfg.key = some k) (hfo : failing o = true) :
    test_connection cfg o ⟨false, true⟩ = (⟨false, true⟩, [], true) := by
  cases o with
  | exn e => simp [test_connection, hk]
  | resp r =>
    have hr : ¬ r.status_code = 200 := by simpa [failing] using hfo
    simp [test_connection, hk, hr]

lemma runProbe_errored (cfg : Config) (k : String) (run : List ProbeOutcome)
    (hk : cfg.key = some k) (hfail : ∀ o ∈ run, failing o = true) :
    runProbe cfg ⟨false, true⟩ run = (⟨false, true⟩, 0) := by
  induction run with
  | nil => rfl
  | cons o rest ih =>
    have h1 := test_connection_fail_errored cfg k o hk (hfail o (by simp))
    have h2 := ih (fun x hx => hfail x (by simp [hx]))
    simp [runProbe, h1, h2]

/-! ## Claim theorems -/

/-- C1: For every animation frame in which `state_ok` is false, the
animator drives LED index 0 to duty cycle `led_on * max_bright` (so its
duty cycle is either 0 or 50) and drives every other LED to duty cycle 0,
regardless of the press-timestamp array's contents (which it also leaves
untouched). -/
theorem error_mode_exclusivity (now n : Nat) (pressed : List Nat) (j : Nat)
    (hj : j < pressed.length) :
    (serviceFrame false now n pressed).1.getD j none =
      some (if j = 0 then ledOnClock now * max_bright else 0) ∧
    (ledOnClock now * max_bright = 0 ∨ ledOnClock now * max_bright = max_bright) ∧
    (serviceFrame false now n pressed).2 = pressed := by
  refine ⟨?_, ?_, serviceFrame_error_pressed now n pressed⟩
  · rw [serviceFrame, serviceChannels_duty_getD _ _ _ _ pressed 0 j hj]
    simp [ledFrame]
  · have hlo := ledOnClock_le_one now
    have hmb : max_bright = 50 := rfl
    rw [hmb]
    omega

/-- Witness for C1 at a concrete frame. -/
theorem error_mode_exclusivity_witness :
    (serviceFrame false 5100 3 [0, 4900, 1, 0, 7]).1.getD 1 none =
      some (if 1 = 0 then ledOnClock 5100 * max_bright else 0) ∧
    (ledOnClock 5100 * max_bright = 0 ∨ ledOnClock 5100 * max_bright = max_bright) ∧
    (serviceFrame false 5100 3 [0, 4900, 1, 0, 7]).2 = [0, 4900, 1, 0, 7] :=
  error_mode_exclusivity 5100 3 [0, 4900, 1, 0, 7] 1 (by decide)

/-- C5: In idle mode the duty cycle written is the shared sweep value,
which always lies within `[min_bright, max_bright] = [5, 50]`, changes by
exactly 1 per frame (up while the position in the period is below
`max_bright - min_bright`, down after), and repeats with period
`2 * (max_bright - min_bright) = 90` frames. -/
theorem idle_sweep_triangle (n led_on now j : Nat) :
    (min_bright ≤ sweep n ∧ sweep n ≤ max_bright) ∧
    (sweep (n + 1) = sweep n + 1 ∨ sweep n = sweep (n + 1) + 1) ∧
    (n % sweepPeriod < max_bright - min_bright → sweep (n + 1) = sweep n + 1) ∧
    (max_bright - min_bright ≤ n % sweepPeriod → sweep n = sweep (n + 1) + 1) ∧
    sweep (n + sweepPeriod) = sweep n ∧
    sweepPeriod = 2 * (max_bright - min_bright) ∧
    (ledFrame true led_on (sweep n) now j 0).1 = some (sweep n) := by
  have hk : n % 90 < 90 := Nat.mod_lt _ (by omega)
  have hstep := sweepList_step (n % 90) hk
  have hper : sweepPeriod = 90 := sweepPeriod_eq
  have h45 : max_bright - min_bright = 45 := rfl
  refine ⟨sweep_bounds n, ?_, ?_, ?_, ?_, ?_, ?_⟩
  · rcases Nat.lt_or_ge (n % 90) 45 with h | h
    · left
      rw [sweep_succ, sweep_eq]
      exact hstep.1 h
    · right
      rw [sweep_succ, sweep_eq]
      exact hstep.2 h
  · intro h
    rw [hper, h45] at h
    rw [sweep_succ, sweep_eq]
    exact hstep.1 h
  · intro h
    rw [hper, h45] at h
    rw [sweep_succ, sweep_eq]
    exact hstep.2 h
  · rw [sweep_eq, sweep_eq, hper]
    congr 1
    omega
  · rw [hper, h45]
  · simp [ledFrame]

/-- Witness for C5: one ascending and one descending step. -/
theorem idle_sweep_triangle_witness :
    sweep 1 = sweep 0 + 1 ∧ sweep 45 = sweep 46 + 1 :=
  ⟨(idle_sweep_triangle 0 0 0 0).2.2.1 (by decide),
   (idle_sweep_triangle 45 0 0 0).2.2.2.1 (by decide)⟩

/-- C9: Every duty-cycle value the animator writes to any PWM channel, in
every mode and for every frame and health/press state, lies within 0-100
inclusive. -/
theorem duty_cycle_in_range (state_ok : Bool) (now n : Nat)
    (pressed : List Nat) (od : Option Nat) (d : Nat)
    (hod : od ∈ (serviceFrame state_ok now n pressed).1) (hd : od = some d) :
    d ≤ 100 := by
  obtain ⟨j, pj, hj⟩ := serviceChannels_duty_mem _ _ _ _ pressed 0 od hod
  rw [hd] at hj
  exact ledFrame_duty_le state_ok (ledOnClock now) (sweep n) now j pj
    (ledOnClock_le_one now) (sweep_bounds n).2 d hj.symm

/-- Witness for C9 at a concrete error-mode frame writing duty 50. -/
theorem duty_cycle_in_range_witness : (50 : Nat) ≤ 100 :=
  duty_cycle_in_range false 5250 3 [0] (some 50) 50 (by decide) rfl

/-- C2 counterexample: at a healthy frame with `pressed[0] = 1` expired
(`1 < 5000 - flash_time`), the code clears the timestamp but writes **no**
duty cycle to LED 0 that frame — it does not drive the idle sweep value,
contrary to the claim. -/
theorem press_expiry_no_idle_write_cex :
    ((1 : Nat) ≠ 0) ∧ (1 < 5000 - flash_time) ∧
    (serviceFrame true 5000 0 [1]).1 = [none] ∧
    ((none : Option Nat) ≠ some (sweep 0)) ∧
    (serviceFrame true 5000 0 [1]).2 = [0] := by decide

/-- C2 amended: for a healthy frame with `pressed[j] ≠ 0`: if the press is
older than `flash_time` relative to `now`, the animator clears `pressed[j]`
to 0 and writes no duty cycle to LED `j` that frame (idle resumes only from
the next frame); otherwise it drives LED `j` to `led_on * 100` and keeps
the timestamp. -/
theorem press_flash_expiry (now n j : Nat) (pressed : List Nat)
    (hj : j < pressed.length) (hne : pressed.getD j 0 ≠ 0) :
    (pressed.getD j 0 < now - flash_time →
      (serviceFrame true now n pressed).1.getD j none = none ∧
      (serviceFrame true now n pressed).2.getD j 0 = 0) ∧
    (¬ pressed.getD j 0 < now - flash_time →
      (serviceFrame true now n pressed).1.getD j none =
        some (ledOnClock now * 100) ∧
      (serviceFrame true now n pressed).2.getD j 0 = pressed.getD j 0) := by
  rw [serviceFrame]
  rw [serviceChannels_duty_getD _ _ _ _ pressed 0 j hj,
    serviceChannels_pressed_getD _ _ _ _ pressed 0 j hj]
  obtain ⟨pj, hpj⟩ : ∃ pj, pressed.getD j 0 = pj := ⟨_, rfl⟩
  rw [hpj] at hne ⊢
  constructor <;> intro hexp <;> simp [ledFrame, hne, hexp]

/-- Witness for C2 (amended), on an expired and an active press. -/
theorem press_flash_expiry_witness :
    ((serviceFrame true 5000 0 [1]).1.getD 0 none = none ∧
     (serviceFrame true 5000 0 [1]).2.getD 0 0 = 0) ∧
    ((serviceFrame true 5000 0 [2500]).1.getD 0 none =
        some (ledOnClock 5000 * 100) ∧
     (serviceFrame true 5000 0 [2500]).2.getD 0 0 = 2500) :=
  ⟨(press_flash_expiry 5000 0 0 [1] (by decide) (by decide)).1 (by decide),
   (press_flash_expiry 5000 0 0 [2500] (by decide) (by decide)).2 (by decide)⟩

/-- C10: While `state_ok` is false the error-mode branch never clears any
entry of the pressed array — a press recorded by `buttonPress` persists
unchanged through any run of unhealthy frames — so on the first healthy
frame the paired LED press-flashes if the press is still within
`flash_time`, and otherwise its timestamp is cleared then (with no duty
write on that clearing frame). -/
theorem error_mode_preserves_presses (frames : List (Nat × Nat))
    (pressed : List Nat) (j t now n : Nat) (hj : j < pressed.length)
    (ht : t ≠ 0) :
    errorFrames frames (buttonPress pressed j t) = buttonPress pressed j t ∧
    (¬ t < now - flash_time →
      (serviceFrame true now n (errorFrames frames (buttonPress pressed j t))).1.getD j none =
        some (ledOnClock now * 100)) ∧
    (t < now - flash_time →
      (serviceFrame true now n (errorFrames frames (buttonPress pressed j t))).1.getD j none =
        none ∧
      (serviceFrame true now n (errorFrames frames (buttonPress pressed j t))).2.getD j 0 = 0) := by
  have hpres : errorFrames frames (buttonPress pressed j t) = buttonPress pressed j t :=
    errorFrames_eq frames _
  have hlen : j < (buttonPress pressed j t).length := by
    simpa [buttonPress] using hj
  have hget : (buttonPress pressed j t).getD j 0 = t := by
    simp [buttonPress, List.getD_eq_getElem?_getD, List.getElem?_set_self hj]
  refine ⟨hpres, ?_, ?_⟩
  · intro hexp
    rw [hpres, serviceFrame,
      serviceChannels_duty_getD _ _ _ _ _ 0 j hlen, hget]
    simp [ledFrame, ht, hexp]
  · intro hexp
    rw [hpres, serviceFrame,
      serviceChannels_duty_getD _ _ _ _ _ 0 j hlen,
      serviceChannels_pressed_getD _ _ _ _ _ 0 j hlen, hget]
    simp [ledFrame, ht, hexp]

/-- Witness for C10: a press at t=50 survives two unhealthy frames, then
is cleared (with no duty write) on the first healthy frame at now=5000. -/
theorem error_mode_preserves_presses_witness :
    errorFrames [(100, 0), (200, 1)] (buttonPress [0, 0] 1 50) =
      buttonPress [0, 0] 1 50 ∧
    (serviceFrame true 5000 2 (errorFrames [(100, 0), (200, 1)]
        (buttonPress [0, 0] 1 50))).1.getD 1 none = none ∧
    (serviceFrame true 5000 2 (errorFrames [(100, 0), (200, 1)]
        (buttonPress [0, 0] 1 50))).2.getD 1 0 = 0 :=
  have h := error_mode_preserves_presses [(100, 0), (200, 1)] [0, 0] 1 50 5000 2
    (by decide) (by decide)
  ⟨h.1, (h.2.2 (by decide)).1, (h.2.2 (by decide)).2⟩

/-- C3: In `send_vote`, an HTTP 200 response sets `state_ok` true and
emits no error log line; a non-200 response sets `state_ok` false and
emits exactly one error log line, the status code followed by the first
100 characters of the response body with newlines replaced by spaces. -/
theorem send_vote_response_spec (u k : String) (r : Response) :
    (r.status_code = 200 →
      send_vote ⟨some u, some k⟩ (.ok r) = .ok (true, [])) ∧
    (r.status_code ≠ 200 →
      send_vote ⟨some u, some k⟩ (.ok r) = .ok (false, [voteFailLine r]) ∧
      voteFailLine r = "(Status: ".toList ++ (toString r.status_code).toList ++
        ") ".toList ++ pyReplace (r.text.take 100) '\n' ' ') := by
  constructor
  · intro h200
    simp [send_vote, h200, error_state]
  · intro hne
    exact ⟨by simp [send_vote, hne, error_state], rfl⟩

/-- Witness for C3 on a 200 and on a 500 with a newline in the body. -/
theorem send_vote_response_spec_witness :
    send_vote ⟨some "u", some "k"⟩ (.ok ⟨200, "ok".toList⟩) = .ok (true, []) ∧
    send_vote ⟨some "u", some "k"⟩ (.ok ⟨500, "Internal\nerror body".toList⟩) =
      .ok (false, [voteFailLine ⟨500, "Internal\nerror body".toList⟩]) :=
  ⟨(send_vote_response_spec "u" "k" ⟨200, "ok".toList⟩).1 rfl,
   ((send_vote_response_spec "u" "k" ⟨500, "Internal\nerror body".toList⟩).2
     (by decide)).1⟩

/-- C6 counterexample: with credentials present, a transport exception of
the HTTP POST is **not** caught inside `send_vote`: the call produces no
result (`state_ok` is not written) and the exception propagates out. -/
theorem send_vote_transport_cex :
    send_vote ⟨some "u", some "k"⟩ (.error .timeout) =
      .error (.transport .timeout) ∧
    (send_vote ⟨some "u", some "k"⟩ (.error .timeout)).toOption = none := by
  decide

/-- C6 amended: `send_vote` has no `try/except`: a transport-level failure
raised by the HTTP POST propagates out of `send_vote` without writing
`state_ok` or logging; it terminates only the detached dispatcher thread
(thread isolation, not a handler in `send_vote`, keeps it from the frame
loop). -/
theorem send_vote_transport_uncaught (u k : String) (e : TransportError) :
    send_vote ⟨some u, some k⟩ (.error e) = .error (.transport e) := rfl

/-- C4: With the key present, starting from a probe state whose
suppression flag `test_connection.error` is clear, any nonempty run of
consecutive failing `test_connection` calls leaves `state_ok` false and
the flag set, and emits exactly one error log line in total; a 200 ping
response resets `state_ok` true and clears the flag. -/
theorem probe_failure_logging (cfg : Config) (k : String) (s : ProbeState)
    (run : List ProbeOutcome) (hk : cfg.key = some k)
    (hs : s.error = false) (hne : run ≠ [])
    (hfail : ∀ o ∈ run, failing o = true) :
    (runProbe cfg s run).1.state_ok = false ∧
    (runProbe cfg s run).1.error = true ∧
    (runProbe cfg s run).2 = 1 ∧
    (∀ (s2 : ProbeState) (r : Response), r.status_code = 200 →
      (test_connection cfg (.resp r) s2).1 = ⟨true, false⟩) := by
  cases run with
  | nil => exact absurd rfl hne
  | cons o rest =>
    have h1 := test_connection_fail_first cfg k o s hk
      (hfail o (List.mem_cons_self o rest)) hs
    have h2 := runProbe_errored cfg k rest hk
      (fun x hx => hfail x (List.mem_cons_of_mem o hx))
    have hrun : runProbe cfg s (o :: rest) = (⟨false, true⟩, 1) := by
      simp only [runProbe]
      rw [h1.1, h2, h1.2]
      rfl
    refine ⟨by rw [hrun], by rw [hrun], by rw [hrun], ?_⟩
    intro s2 r h200
    simp [test_connection, hk, h200]

/-- Witness for C4: three consecutive failures from a clean state emit one
error line, then a 200 resets the flag. -/
theorem probe_failure_logging_witness :
    (runProbe ⟨some "u", some "k"⟩ ⟨true, false⟩
        [.exn .timeout, .resp ⟨500, []⟩, .exn .connectionError]).1.state_ok = false ∧
    (runProbe ⟨some "u", some "k"⟩ ⟨true, false⟩
        [.exn .timeout, .resp ⟨500, []⟩, .exn .connectionError]).1.error = true ∧
    (runProbe ⟨some "u", some "k"⟩ ⟨true, false⟩
        [.exn .timeout, .resp ⟨500, []⟩, .exn .connectionError]).2 = 1 ∧
    (∀ (s2 : ProbeState) (r : Response), r.status_code = 200 →
      (test_connection ⟨some "u", some "k"⟩ (.resp r) s2).1 = ⟨true, false⟩) :=
  probe_failure_logging ⟨some "u", some "k"⟩ "k" ⟨true, false⟩
    [.exn .timeout, .resp ⟨500, []⟩, .exn .connectionError]
    rfl rfl (by simp) (by decide)

/-- C8: If the secret key is absent from the configuration,
`test_connection` immediately sets its internal error flag and returns:
no network request is issued, no log line is emitted, and `state_ok` is
not written. -/
theorem test_connection_missing_key (cfg : Config) (o : ProbeOutcome)
    (s : ProbeState) (hk : cfg.key = none) :
    test_connection cfg o s = ({ s with error := true }, [], false) ∧
    (test_connection cfg o s).1.state_ok = s.state_ok ∧
    (test_connection cfg o s).2.1 = [] ∧
    (test_connection cfg o s).2.2 = false := by
  have h : test_connection cfg o s = ({ s with error := true }, [], false) := by
    simp [test_connection, hk]
  exact ⟨h, by rw [h], by rw [h], by rw [h]⟩

/-- Witness for C8 with a keyless config. -/
theorem test_connection_missing_key_witness :
    test_connection ⟨some "u", none⟩ (.resp ⟨200, []⟩) ⟨true, false⟩ =
      (⟨true, true⟩, [], false) ∧
    (test_connection ⟨some "u", none⟩ (.resp ⟨200, []⟩) ⟨true, false⟩).1.state_ok = true ∧
    (test_connection ⟨some "u", none⟩ (.resp ⟨200, []⟩) ⟨true, false⟩).2.1 = [] ∧
    (test_connection ⟨some "u", none⟩ (.resp ⟨200, []⟩) ⟨true, false⟩).2.2 = false :=
  test_connection_missing_key ⟨some "u", none⟩ (.resp ⟨200, []⟩) ⟨true, false⟩ rfl

/-- C7: With a key present, `get_auth_token` returns a token that is the
timestamped signature, under that key, of the base64 encoding of the 32
bytes drawn fresh from the random source this call (nothing cached: the
token embeds exactly those bytes, so different fresh bytes give different
tokens); with the key absent it fails with the spec's `CredentialMissing`
(Python `KeyError` on `config['key']`). -/
theorem get_auth_token_spec (u k : String) (f g : Nat → Nat) (ts : Nat) :
    (∀ cu : Option String,
      get_auth_token ⟨cu, none⟩ f ts = .error .credentialMissing) ∧
    (∃ t : SignedToken,
      get_auth_token ⟨some u, some k⟩ f ts = .ok t ∧
      t.value = b64encode (urandom f 32) ∧
      b64decode t.value = urandom f 32 ∧
      (urandom f 32).length = 32 ∧
      t.timestamp = ts ∧ t.signedWith = k) ∧
    (urandom f 32 ≠ urandom g 32 →
      get_auth_token ⟨some u, some k⟩ f ts ≠ get_auth_token ⟨some u, some k⟩ g ts) := by
  refine ⟨fun cu => rfl,
    ⟨⟨b64encode (urandom f 32), ts, k⟩, rfl, rfl,
      b64_roundtrip _ (urandom_lt f 32), urandom_length f 32, rfl, rfl⟩, ?_⟩
  intro hne heq
  apply hne
  have h1 : b64encode (urandom f 32) = b64encode (urandom g 32) := by
    simpa [get_auth_token, SignedToken.mk.injEq] using heq
  calc urandom f 32 = b64decode (b64encode (urandom f 32)) :=
        (b64_roundtrip _ (urandom_lt f 32)).symm
    _ = b64decode (b64encode (urandom g 32)) := by rw [h1]
    _ = urandom g 32 := b64_roundtrip _ (urandom_lt g 32)

/-- Witness for C7: a keyless call fails and two different random draws
give different tokens. -/
theorem get_auth_token_spec_witness :
    get_auth_token ⟨some "u", none⟩ (fun a => a) 7 = .error .credentialMissing ∧
    get_auth_token ⟨some "u", some "k"⟩ (fun a => a) 7 ≠
      get_auth_token ⟨some "u", some "k"⟩ (fun a => a + 1) 7 :=
  ⟨(get_auth_token_spec "u" "k" (fun a => a) (fun a => a + 1) 7).1 (some "u"),
   (get_auth_token_spec "u" "k" (fun a => a) (fun a => a + 1) 7).2.2 (by decide)⟩

end VoteBox
